import Mathlib

/-!
Verification of the fine-tuning script in classifier/finetune.py.

The script is a linear pipeline: load a model and tokenizer, load a JSONL
dataset, map a label-conversion function and a tokenization function over it,
shuffle, and hand the result to a trainer. We embed each function of the
script as a Lean definition and prove the specified properties about them.

Python runtime failures are made explicit with the PyError type: a failed
dictionary lookup is a KeyError, reading a never-assigned loop variable is
an UnboundLocalError, and integer division by zero is a ZeroDivisionError.
-/

/-- Runtime errors that the script can raise; none of them are caught
anywhere in the script, so they propagate to the caller. -/
inductive PyError where
  | keyError : PyError
  | unboundLocalError : PyError
  | zeroDivisionError : PyError
deriving DecidableEq, Repr

deriving instance DecidableEq for Except

/-! ### Label conversion (finetune.py lines 79-80 and 98-100) -/

/-- Lookup in the two-entry dictionary literal used by convert_labels:
"True" maps to 1 and "False" maps to 0; any other key raises KeyError. -/
def labelMap (label : String) : Except PyError Nat :=
  if label = "True" then .ok 1
  else if label = "False" then .ok 0
  else .error .keyError

/-- The id2label dictionary of line 79: 0 maps to "False" and 1 to "True". -/
def id2label (i : Nat) : Option String :=
  if i = 0 then some "False"
  else if i = 1 then some "True"
  else none

/-- The label2id dictionary of line 80. -/
def label2id (s : String) : Option Nat :=
  if s = "False" then some 0
  else if s = "True" then some 1
  else none

/-- A batch of raw examples: parallel text and label columns, as handed to
the batched dataset.map calls. Labels are the raw strings from the JSONL. -/
structure RawDataset where
  text : List String
  label : List String
deriving DecidableEq, Repr

/-- Left-to-right evaluation of the list comprehension over the label
column: the first lookup that raises aborts the whole comprehension. -/
def mapLabels : List String → Except PyError (List Nat)
  | [] => .ok []
  | l :: ls =>
    match labelMap l with
    | .error e => .error e
    | .ok v =>
      match mapLabels ls with
      | .error e => .error e
      | .ok vs => .ok (v :: vs)

/-- The convert_labels closure of lines 98-100: it maps the two-entry
dictionary lookup over the label column, producing the new label column.
A label other than "True" or "False" raises the KeyError of the lookup. -/
def convert_labels (examples : RawDataset) : Except PyError (List Nat) :=
  mapLabels examples.label

/-- If a label is neither "True" nor "False", the dictionary lookup raises. -/
theorem labelMap_bad (l : String) (h1 : l ≠ "True") (h2 : l ≠ "False") :
    labelMap l = .error .keyError := by
  simp [labelMap, h1, h2]

/-- The only error the two-entry lookup can raise is KeyError. -/
theorem labelMap_error_eq (l : String) (e : PyError)
    (h : labelMap l = .error e) : e = .keyError := by
  unfold labelMap at h
  split_ifs at h
  all_goals simp_all

/-- Mapping labelMap over a column containing a key that raises yields the
raised KeyError for the whole batch. -/
theorem mapLabels_error (ls : List String) (x : String) (hx : x ∈ ls)
    (hbad : labelMap x = .error .keyError) :
    mapLabels ls = .error .keyError := by
  induction ls with
  | nil => cases hx
  | cons a t ih =>
    rcases List.mem_cons.mp hx with rfl | hmem
    · simp [mapLabels, hbad]
    · cases h : labelMap a with
      | error e =>
        have he := labelMap_error_eq a e h
        subst he
        simp [mapLabels, h]
      | ok v =>
        simp [mapLabels, h, ih hmem]

/-! ### Metrics (finetune.py lines 19-31)

The evaluate library is an external dependency; we embed each loaded metric
by its standard definition on integer predictions and references, with the
positive class being 1 and the zero-division convention returning 0 (in the
rationals, division by zero is 0). The scores are rational numbers. -/

/-- Index of the first occurrence of the maximum, as np.argmax computes it:
idx is the index of the head of the remaining list, best is the index of the
running maximum bv, and ties keep the earlier index. -/
def argmaxAux (idx best : Nat) (bv : ℚ) : List ℚ → Nat
  | [] => best
  | x :: xs => if bv < x then argmaxAux (idx + 1) idx x xs else argmaxAux (idx + 1) best bv xs

/-- np.argmax over one row of logits: first index attaining the maximum. -/
def argmaxIdx : List ℚ → Nat
  | [] => 0
  | x :: xs => argmaxAux 1 0 x xs

/-- Fraction of positions where prediction and reference agree. -/
def accuracyScore (preds refs : List Nat) : ℚ :=
  (((preds.zip refs).countP fun pr => pr.1 == pr.2 : Nat) : ℚ) / ((refs.length : Nat) : ℚ)

/-- Count of pairs that are predicted positive and truly positive. -/
def truePositives (preds refs : List Nat) : Nat :=
  (preds.zip refs).countP fun pr => pr.1 == 1 && pr.2 == 1

/-- Count of pairs that are predicted positive but not truly positive. -/
def falsePositives (preds refs : List Nat) : Nat :=
  (preds.zip refs).countP fun pr => pr.1 == 1 && pr.2 != 1

/-- Count of pairs that are truly positive but not predicted positive. -/
def falseNegatives (preds refs : List Nat) : Nat :=
  (preds.zip refs).countP fun pr => pr.1 != 1 && pr.2 == 1

/-- Binary precision with positive class 1. -/
def precisionScore (preds refs : List Nat) : ℚ :=
  ((truePositives preds refs : Nat) : ℚ) /
    ((truePositives preds refs + falsePositives preds refs : Nat) : ℚ)

/-- Binary recall with positive class 1. -/
def recallScore (preds refs : List Nat) : ℚ :=
  ((truePositives preds refs : Nat) : ℚ) /
    ((truePositives preds refs + falseNegatives preds refs : Nat) : ℚ)

/-- Binary F1 with positive class 1. -/
def f1Score (preds refs : List Nat) : ℚ :=
  ((2 * truePositives preds refs : Nat) : ℚ) /
    ((2 * truePositives preds refs + falsePositives preds refs
        + falseNegatives preds refs : Nat) : ℚ)

/-- The metrics dictionary of lines 19-24, in its literal order: metric name
paired with the metric's compute function. -/
def metrics : List (String × (List Nat → List Nat → ℚ)) :=
  [("accuracy", accuracyScore), ("f1", f1Score),
   ("precision", precisionScore), ("recall", recallScore)]

/-- compute_metrics of lines 27-31: take the argmax of the logits along the
last axis and apply every metric of the dictionary to the predictions and
references, building the name-to-score dictionary. -/
def compute_metrics (pred_eval : List (List ℚ) × List Nat) : List (String × ℚ) :=
  let logits := pred_eval.1
  let labels := pred_eval.2
  let predictions := logits.map argmaxIdx
  metrics.map fun nm => (nm.1, nm.2 predictions labels)

/-! ### Tokenizer (finetune.py lines 90 and 102-104)

The tokenizer is the external AutoTokenizer loaded with model_max_length 512
and called with truncation enabled and padding to max length. We embed it
over an abstract subword encoding: the raw encoding of a text is truncated
to model_max_length token ids and then padded with the pad token id up to
model_max_length; the attention mask is 1 on real tokens and 0 on padding. -/

structure TokenizerCfg where
  model_max_length : Nat
  encode : String → List Nat
  pad_token_id : Nat

structure TokenizedBatch where
  input_ids : List (List Nat)
  attention_mask : List (List Nat)
deriving DecidableEq, Repr

/-- One tokenizer call on a batch of texts, with truncation to and padding
up to model_max_length. -/
def tokenizerApply (tk : TokenizerCfg) (texts : List String) : TokenizedBatch :=
  { input_ids := texts.map fun t =>
      let tr := (tk.encode t).take tk.model_max_length
      tr ++ List.replicate (tk.model_max_length - tr.length) tk.pad_token_id
    attention_mask := texts.map fun t =>
      let tr := (tk.encode t).take tk.model_max_length
      List.replicate tr.length 1 ++ List.replicate (tk.model_max_length - tr.length) 0 }

/-- A batch after convert_labels: the text column with integer labels. -/
structure ConvertedDataset where
  text : List String
  label : List Nat
deriving DecidableEq, Repr

/-- The tokenize closure of lines 102-104: tokenize the text field of all
examples with the tokenizer of line 90. -/
def tokenize (tk : TokenizerCfg) (examples : ConvertedDataset) : TokenizedBatch :=
  tokenizerApply tk examples.text

/-- The tokenizer of line 90 is configured with model_max_length 512; its
subword encoding and pad token id come with the pretrained checkpoint and
stay abstract here. -/
def mainTokenizer (encode : String → List Nat) (padTok : Nat) : TokenizerCfg :=
  { model_max_length := 512, encode := encode, pad_token_id := padTok }

/-! ### The custom-loss trainer (finetune.py lines 46-66)

The inputs mapping handed to compute_loss is a Python dictionary from
string keys to tensors; we embed it as an association list with the value
type kept abstract. dict.pop returns the value stored at the key and
removes the binding, raising KeyError when the key is absent. -/

/-- Lookup of a key in an association list, first binding wins. -/
def dictLookup {V : Type} (d : List (String × V)) (k : String) : Option V :=
  match d with
  | [] => none
  | p :: t => if p.1 = k then some p.2 else dictLookup t k

/-- Removal of every binding of a key from an association list; on a
dictionary, whose keys are unique, this removes exactly the one binding. -/
def removeKey {V : Type} (d : List (String × V)) (k : String) :
    List (String × V) :=
  match d with
  | [] => []
  | p :: t => if p.1 = k then removeKey t k else p :: removeKey t k

/-- dict.pop on an association list: the stored value together with the
dictionary after removal of the key, or KeyError when the key is absent. -/
def dictPop {V : Type} (d : List (String × V)) (k : String) :
    Except PyError (V × List (String × V)) :=
  match dictLookup d k with
  | some v => .ok (v, removeKey d k)
  | none => .error .keyError

/-- The object returned by a model call; only the logits field is read. -/
structure ModelOutput (V : Type) where
  logits : V
deriving DecidableEq, Repr

/-- The value returned by compute_loss: the loss alone, or the pair of the
loss and the model outputs when return_outputs is set. -/
inductive LossReturn (V : Type) where
  | lossOnly : V → LossReturn V
  | lossAndOutputs : V → ModelOutput V → LossReturn V
deriving DecidableEq, Repr

/-- TrainerWithCustomLoss.compute_loss of lines 60-66: pop the labels out
of the inputs, run the model on the remaining inputs, apply the configured
compute_loss_fn to the logits and the labels, and return the loss (paired
with the outputs when return_outputs is set). The second component of the
result is the inputs dictionary as the caller observes it after the call,
since dict.pop mutates it in place. -/
def TrainerWithCustomLoss.compute_loss {V : Type}
    (compute_loss_fn : V → V → V)
    (model : List (String × V) → ModelOutput V)
    (inputs : List (String × V)) (return_outputs : Bool) :
    Except PyError (LossReturn V × List (String × V)) :=
  match dictPop inputs "labels" with
  | .error e => .error e
  | .ok (labels, rest) =>
    let outputs := model rest
    let loss := compute_loss_fn outputs.logits labels
    .ok (if return_outputs then .lossAndOutputs loss outputs else .lossOnly loss, rest)

/-- Removing a key from an association list leaves the lookup of every
other key unchanged. -/
theorem dictLookup_removeKey_ne {V : Type} (d : List (String × V))
    (k0 k : String) (hk : k ≠ k0) :
    dictLookup (removeKey d k0) k = dictLookup d k := by
  induction d with
  | nil => rfl
  | cons a t ih =>
    by_cases ha : a.1 = k0
    · have hka : a.1 ≠ k := by
        rw [ha]
        exact fun h => hk h.symm
      simp [removeKey, dictLookup, ha, hka, hk, Ne.symm hk, ih]
    · by_cases hka : a.1 = k
      · simp [removeKey, dictLookup, ha, hka, hk, Ne.symm hk]
      · simp [removeKey, dictLookup, ha, hka, ih]

/-- After removal of a key, looking it up fails. -/
theorem dictLookup_removeKey_self {V : Type} (d : List (String × V))
    (k0 : String) : dictLookup (removeKey d k0) k0 = none := by
  induction d with
  | nil => rfl
  | cons a t ih =>
    by_cases ha : a.1 = k0
    · simp [removeKey, ha, ih]
    · simp [removeKey, dictLookup, ha, ih]

/-! ### get_max_steps (finetune.py lines 34-43)

The function iterates over the lines of the training file with enumerate,
binding the loop variable to 0, 1, 2, ... in turn, and after the loop
returns (n_examples + 1) * num_train_epochs // batch_size. On an empty
file the loop body never runs, so reading n_examples afterwards raises
UnboundLocalError. Python's // is floor division, Int.fdiv; a zero
batch_size raises ZeroDivisionError. -/

/-- One iteration of the counting loop: the loop variable takes the next
enumeration index. -/
def enumStep (acc : Option Nat) (_ : String) : Option Nat :=
  some (match acc with | none => 0 | some k => k + 1)

/-- Value of the loop variable n_examples after the loop, none when the
loop body never ran. -/
def loopLastIndex (lines : List String) : Option Nat :=
  lines.foldl enumStep none

/-- get_max_steps of lines 34-43 on the list of lines of the file. -/
def get_max_steps (lines : List String) (num_train_epochs batch_size : Int) :
    Except PyError Int :=
  match loopLastIndex lines with
  | none => .error .unboundLocalError
  | some n =>
    if batch_size = 0 then .error .zeroDivisionError
    else .ok (Int.fdiv (((n : Int) + 1) * num_train_epochs) batch_size)

/-- Folding the counting step from an already-bound loop variable adds the
number of remaining iterations. -/
theorem foldl_enumStep_some (l : List String) (k : Nat) :
    l.foldl enumStep (some k) = some (k + l.length) := by
  induction l generalizing k with
  | nil => simp
  | cons a t ih =>
    simp only [List.foldl, enumStep, ih, List.length_cons]
    exact congrArg some (by omega)

/-- On a nonempty file the loop variable ends at the index of the last
line. -/
theorem loopLastIndex_eq (lines : List String) (h : lines ≠ []) :
    loopLastIndex lines = some (lines.length - 1) := by
  cases lines with
  | nil => exact absurd rfl h
  | cons a t =>
    show (a :: t).foldl enumStep none = _
    simp only [List.foldl, enumStep]
    rw [foldl_enumStep_some]
    simp

/-- Flooring division is invariant under negating both operands. -/
theorem fdiv_neg_neg (a b : Int) : Int.fdiv (-a) (-b) = Int.fdiv a b := by
  match a, b with
  | Int.ofNat 0, b =>
    show Int.fdiv (-(0 : Int)) (-b) = Int.fdiv 0 b
    rw [Int.neg_zero]
    rw [Int.zero_fdiv, Int.zero_fdiv]
  | Int.ofNat (m + 1), Int.ofNat 0 =>
    show Int.fdiv (Int.negSucc m) (-(0 : Int)) = Int.fdiv (Int.ofNat (m + 1)) 0
    rw [Int.neg_zero]
    rw [Int.fdiv_zero, Int.fdiv_zero]
  | Int.ofNat (m + 1), Int.ofNat (n + 1) => rfl
  | Int.ofNat (m + 1), Int.negSucc n => rfl
  | Int.negSucc m, Int.ofNat 0 =>
    show Int.fdiv (Int.ofNat (m + 1)) (-(0 : Int)) = Int.fdiv (Int.negSucc m) 0
    rw [Int.neg_zero]
    rw [Int.fdiv_zero, Int.fdiv_zero]
  | Int.negSucc m, Int.ofNat (n + 1) => rfl
  | Int.negSucc m, Int.negSucc n => rfl

/-- For a positive divisor, flooring integer division is the floor of the
rational quotient. -/
theorem fdiv_eq_floor_pos (a b : Int) (hb : 0 < b) :
    Int.fdiv a b = ⌊(a : ℚ) / (b : ℚ)⌋ := by
  have h0 : (0 : Int) ≤ b := le_of_lt hb
  have hbn : ((b.toNat : Nat) : Int) = b := Int.toNat_of_nonneg h0
  rw [Int.fdiv_eq_ediv a h0]
  have hfq : ⌊((a : ℚ) / ((b.toNat : Nat) : ℚ))⌋ = a / ((b.toNat : Nat) : Int) :=
    Rat.floor_intCast_div_natCast a b.toNat
  rw [hbn] at hfq
  have hcq : (((b.toNat : Nat) : Int) : ℚ) = (b : ℚ) := by
    rw [hbn]
  have hcast : ((b.toNat : Nat) : ℚ) = (b : ℚ) := by
    push_cast at hcq ⊢
    exact_mod_cast congrArg (fun z : Int => (z : ℚ)) hbn
  rw [hcast] at hfq
  exact hfq.symm

/-- For every nonzero divisor, flooring integer division is the floor of
the rational quotient; this is the semantics of Python's // operator. -/
theorem fdiv_eq_floor (a b : Int) (hb : b ≠ 0) :
    Int.fdiv a b = ⌊(a : ℚ) / (b : ℚ)⌋ := by
  rcases lt_or_gt_of_ne hb with hneg | hpos
  · have h1 : Int.fdiv (-a) (-b) = ⌊((-a : Int) : ℚ) / ((-b : Int) : ℚ)⌋ :=
      fdiv_eq_floor_pos (-a) (-b) (by omega)
    rw [fdiv_neg_neg] at h1
    rw [h1]
    have : ((-a : Int) : ℚ) / ((-b : Int) : ℚ) = (a : ℚ) / (b : ℚ) := by
      push_cast
      exact neg_div_neg_eq _ _
    rw [this]
  · exact fdiv_eq_floor_pos a b hpos

/-! ### The main pipeline (finetune.py lines 69-139)

main is a straight-line script. We embed it twice, consistently: as a
trace of the externally visible steps in program order, and as the function
from the raw dataset to the processed dataset handed to the trainer. The
shuffle of line 107 delegates to the dataset library's seeded row
permutation, which we keep abstract as a list of row indices. The
commented-out TrainerWithCustomLoss construction of lines 120-128 is not
part of the executed script, so the executed trace constructs the plain
Trainer of lines 130-137. -/

/-- Which trainer class a construction instantiates. -/
inductive TrainerKind where
  | plain : TrainerKind
  | withCustomLoss : TrainerKind
deriving DecidableEq, Repr

/-- The externally visible steps of main, in program order. -/
inductive MainStep where
  | loadModel : MainStep
  | loadTokenizer : MainStep
  | loadDataset : MainStep
  | mapConvertLabels : MainStep
  | mapTokenize : MainStep
  | shuffle : Nat → MainStep
  | buildTrainingArgs : MainStep
  | constructTrainer : TrainerKind → MainStep
  | callTrain : MainStep
deriving DecidableEq, Repr

/-- The trace of main as executed: lines 83 (model), 90 (tokenizer),
93 (dataset), 106 (convert_labels map), 107 (tokenize map and shuffle with
seed 42), 109 (arguments), 130 (plain Trainer) and 139 (train). -/
def mainTrace : List MainStep :=
  [MainStep.loadModel, MainStep.loadTokenizer, MainStep.loadDataset,
   MainStep.mapConvertLabels, MainStep.mapTokenize, MainStep.shuffle 42,
   MainStep.buildTrainingArgs, MainStep.constructTrainer TrainerKind.plain,
   MainStep.callTrain]

/-- The loss weight tensor of line 81: weight 1 for class 0, weight 10 for
class 1. It is only ever mentioned by the commented-out construction. -/
def label_loss_weights : List ℚ := [1, 10]

/-- A trainer as configured by main: the only functional difference between
the plain Trainer and TrainerWithCustomLoss is an optional override of the
per-batch loss function. -/
structure TrainerSpec (V : Type) where
  kind : TrainerKind
  custom_loss_fn : Option (V → V → V)

/-- The trainer constructed on lines 130-137: the plain Trainer, with no
custom loss function. -/
def mainTrainerSpec (V : Type) : TrainerSpec V :=
  { kind := TrainerKind.plain, custom_loss_fn := none }

/-- The trainer the commented-out lines 120-128 would construct: a
TrainerWithCustomLoss whose loss function is cross entropy weighted by
label_loss_weights. The cross-entropy implementation itself lives in the
external framework and stays abstract. -/
def dormantTrainerSpec (V : Type) (crossEntropyLoss : List ℚ → V → V → V) :
    TrainerSpec V :=
  { kind := TrainerKind.withCustomLoss,
    custom_loss_fn := some (crossEntropyLoss label_loss_weights) }

/-- The per-batch loss a trainer uses during training: the framework
default unless a custom loss function overrides it. -/
def trainerBatchLoss {V : Type} (t : TrainerSpec V) (defaultLoss : V → V → V)
    (logits labels : V) : V :=
  match t.custom_loss_fn with
  | none => defaultLoss logits labels
  | some f => f logits labels

/-- A fully processed dataset split: the columns after both maps. -/
structure TokenizedDataset where
  text : List String
  label : List Nat
  input_ids : List (List Nat)
  attention_mask : List (List Nat)
deriving DecidableEq, Repr

/-- Reordering of one column by a list of row indices, as a seeded shuffle
applies it; indices out of range contribute nothing. -/
def applyPerm {α : Type} (perm : List Nat) (col : List α) : List α :=
  perm.filterMap fun i => col.get? i

/-- The seeded shuffle of line 107 applied to a processed split: every
column is reordered by the same row permutation. -/
def shuffleSplit (perm : List Nat) (d : TokenizedDataset) : TokenizedDataset :=
  { text := applyPerm perm d.text, label := applyPerm perm d.label,
    input_ids := applyPerm perm d.input_ids,
    attention_mask := applyPerm perm d.attention_mask }

/-- The dataset.map call of line 106 on one split: the label column is
replaced by the converted one, the text column is untouched. -/
def datasetMapConvert (d : RawDataset) : Except PyError ConvertedDataset :=
  match convert_labels d with
  | .error e => .error e
  | .ok ls => .ok { text := d.text, label := ls }

/-- The dataset.map call of line 107 on one split: the tokenizer output
columns are added next to the existing ones. -/
def datasetMapTokenize (tk : TokenizerCfg) (d : ConvertedDataset) :
    TokenizedDataset :=
  let tb := tokenize tk d
  { text := d.text, label := d.label,
    input_ids := tb.input_ids, attention_mask := tb.attention_mask }

/-- Lines 106-107 of main on one split, step by step in program order:
map convert_labels, then map tokenize, then shuffle. -/
def mainProcessSplit (tk : TokenizerCfg) (perm : List Nat) (raw : RawDataset) :
    Except PyError TokenizedDataset :=
  match datasetMapConvert raw with
  | .error e => .error e
  | .ok d1 =>
    let d2 := datasetMapTokenize tk d1
    .ok (shuffleSplit perm d2)

/-- The TrainingArguments fields set on lines 109-118. -/
structure TrainingArgumentsSpec where
  evaluation_strategy : String
  num_train_epochs : Nat
  per_device_train_batch_size : Nat
  per_device_eval_batch_size : Nat
  save_strategy : String
deriving DecidableEq, Repr

/-- The hyperparameters of lines 70-72 as set into TrainingArguments. -/
def training_args : TrainingArgumentsSpec :=
  { evaluation_strategy := "epoch", num_train_epochs := 50,
    per_device_train_batch_size := 16, per_device_eval_batch_size := 16,
    save_strategy := "epoch" }

/-- Everything main hands to the Trainer constructor on lines 130-137. -/
structure TrainerCall where
  kind : TrainerKind
  train_dataset : TokenizedDataset
  eval_dataset : TokenizedDataset
  args : TrainingArgumentsSpec
deriving Repr

/-- main's construction of the Trainer from the two raw splits: both splits
go through the two maps and the shuffle, and only then are they handed to
the plain Trainer together with the hyperparameters. -/
def mainTrainerCall (tk : TokenizerCfg) (permTrain permVal : List Nat)
    (rawTrain rawVal : RawDataset) : Except PyError TrainerCall :=
  match mainProcessSplit tk permTrain rawTrain with
  | .error e => .error e
  | .ok t =>
    match mainProcessSplit tk permVal rawVal with
    | .error e => .error e
    | .ok v =>
      .ok { kind := TrainerKind.plain, train_dataset := t,
            eval_dataset := v, args := training_args }

/-! ### Stateful view of the preprocessing closures

To state that convert_labels and tokenize are deterministic and stateless
we thread an explicit, arbitrary world state through each call, exactly as
the source threads the interpreter state: the bodies of lines 98-104 only
read their argument (and the tokenize closure the immutable tokenizer
configuration), so the translation leaves the world untouched. -/

/-- convert_labels with the interpreter state made explicit. -/
def convertLabelsSt (World : Type) (examples : RawDataset) (w : World) :
    Except PyError (List Nat) × World :=
  (convert_labels examples, w)

/-- tokenize with the interpreter state made explicit. -/
def tokenizeSt (World : Type) (tk : TokenizerCfg) (examples : ConvertedDataset)
    (w : World) : TokenizedBatch × World :=
  (tokenize tk examples, w)

/-- Mapping labelMap over a column whose entries are all "True" or "False"
succeeds and converts pointwise, "True" to 1 and "False" to 0. -/
theorem mapLabels_all_good (ls : List String)
    (h : ∀ l ∈ ls, l = "True" ∨ l = "False") :
    mapLabels ls = .ok (ls.map fun l => if l = "True" then 1 else 0) := by
  induction ls with
  | nil => rfl
  | cons a t ih =>
    have ht := ih fun l hl => h l (List.mem_cons_of_mem a hl)
    rcases h a (List.mem_cons_self a t) with rfl | rfl
    · simp [mapLabels, labelMap, ht]
    · simp [mapLabels, labelMap, ht]

/-! ### Claim theorems -/

/-- C1: for every pair of logits and labels of matching batch size,
compute_metrics takes the argmax of the logits along the last axis and
returns the dictionary with exactly the four keys "accuracy", "f1",
"precision" and "recall", each mapped to the corresponding scalar
(rational) score of the argmaxed predictions against the references. -/
theorem compute_metrics_four_scalar_keys (logits : List (List ℚ))
    (labels : List Nat) (_h : logits.length = labels.length) :
    ((compute_metrics (logits, labels)).map Prod.fst
        = ["accuracy", "f1", "precision", "recall"]) ∧
    compute_metrics (logits, labels)
      = [("accuracy", accuracyScore (logits.map argmaxIdx) labels),
         ("f1", f1Score (logits.map argmaxIdx) labels),
         ("precision", precisionScore (logits.map argmaxIdx) labels),
         ("recall", recallScore (logits.map argmaxIdx) labels)] := by
  exact ⟨rfl, rfl⟩

/-- Witness for C1 at a concrete two-row batch. -/
theorem compute_metrics_four_scalar_keys_witness :
    ((compute_metrics (([[0, 1], [3, 2]] : List (List ℚ)), [1, 0])).map Prod.fst
        = ["accuracy", "f1", "precision", "recall"]) ∧
    compute_metrics (([[0, 1], [3, 2]] : List (List ℚ)), [1, 0])
      = [("accuracy", accuracyScore (([[0, 1], [3, 2]] : List (List ℚ)).map argmaxIdx) [1, 0]),
         ("f1", f1Score (([[0, 1], [3, 2]] : List (List ℚ)).map argmaxIdx) [1, 0]),
         ("precision", precisionScore (([[0, 1], [3, 2]] : List (List ℚ)).map argmaxIdx) [1, 0]),
         ("recall", recallScore (([[0, 1], [3, 2]] : List (List ℚ)).map argmaxIdx) [1, 0])] :=
  compute_metrics_four_scalar_keys [[0, 1], [3, 2]] [1, 0] rfl

/-- C2: convert_labels maps every label "True" to 1 and every label
"False" to 0, and this mapping is the inverse of the id2label mapping that
sends 0 to "False" and 1 to "True". -/
theorem convert_labels_bijection :
    labelMap "True" = Except.ok 1 ∧
    labelMap "False" = Except.ok 0 ∧
    (∀ d : RawDataset, (∀ l ∈ d.label, l = "True" ∨ l = "False") →
      convert_labels d = .ok (d.label.map fun l => if l = "True" then 1 else 0)) ∧
    (∀ (i : Nat) (s : String), id2label i = some s ↔ labelMap s = Except.ok i) := by
  refine ⟨rfl, rfl, fun d hd => mapLabels_all_good d.label hd, ?_⟩
  intro i s
  constructor
  · intro h
    unfold id2label at h
    split_ifs at h with h0 h1
    · cases h
      subst h0
      rfl
    · cases h
      subst h1
      rfl
  · intro h
    unfold labelMap at h
    split_ifs at h with h0 h1
    · cases h
      subst h0
      rfl
    · cases h
      subst h1
      rfl

/-- Witness for C2 on a concrete two-row batch with both label strings. -/
theorem convert_labels_bijection_witness :
    convert_labels { text := ["a", "b"], label := ["True", "False"] }
      = .ok [1, 0] := by
  have h := convert_labels_bijection.2.2.1
    { text := ["a", "b"], label := ["True", "False"] }
    (by
      intro l hl
      rcases List.mem_cons.mp hl with rfl | hl2
      · exact Or.inl rfl
      · rcases List.mem_cons.mp hl2 with rfl | hl3
        · exact Or.inr rfl
        · cases hl3)
  simpa using h

/-- C3: the trainer constructed and run by main is the plain default
Trainer with the unweighted default loss, while the class-weighted loss
path, cross entropy with weights 1 and 10 through TrainerWithCustomLoss,
is defined but never invoked during the training run. -/
theorem custom_loss_disabled :
    (MainStep.constructTrainer TrainerKind.plain ∈ mainTrace) ∧
    (MainStep.constructTrainer TrainerKind.withCustomLoss ∉ mainTrace) ∧
    (∀ (V : Type) (defaultLoss : V → V → V) (logits labels : V),
      trainerBatchLoss (mainTrainerSpec V) defaultLoss logits labels
        = defaultLoss logits labels) ∧
    (∀ V : Type, (mainTrainerSpec V).custom_loss_fn = none) ∧
    (∀ (V : Type) (ce : List ℚ → V → V → V),
      (dormantTrainerSpec V ce).custom_loss_fn = some (ce label_loss_weights)) ∧
    label_loss_weights = [1, 10] := by
  exact ⟨by decide, by decide, fun _ _ _ _ => rfl, fun _ => rfl,
    fun _ _ => rfl, rfl⟩

/-- C4: every tokenized sequence has exactly the configured maximum length
512: the raw encoding is truncated to 512 tokens and then padded with the
pad token up to 512. -/
theorem tokenize_length_eq_max (encode : String → List Nat) (padTok : Nat)
    (examples : ConvertedDataset) (ids : List Nat)
    (h : ids ∈ (tokenize (mainTokenizer encode padTok) examples).input_ids) :
    ids.length = 512 ∧
    (tokenize (mainTokenizer encode padTok) examples).input_ids
      = examples.text.map fun t =>
          (encode t).take 512
            ++ List.replicate (512 - ((encode t).take 512).length) padTok := by
  constructor
  · simp only [tokenize, tokenizerApply, mainTokenizer, List.mem_map] at h
    obtain ⟨t, _, rfl⟩ := h
    rw [List.length_append, List.length_replicate]
    have hle : ((encode t).take 512).length ≤ 512 := by
      rw [List.length_take]
      omega
    omega
  · rfl

/-- Witness for C4 on a one-token text padded out to the maximum length. -/
theorem tokenize_length_eq_max_witness :
    (([7] : List Nat).take 512
        ++ List.replicate (512 - (([7] : List Nat).take 512).length) 0).length
      = 512 ∧
    (tokenize (mainTokenizer (fun _ => [7]) 0)
        { text := ["a"], label := [1] }).input_ids
      = ["a"].map fun _ =>
          ([7] : List Nat).take 512
            ++ List.replicate (512 - (([7] : List Nat).take 512).length) 0 :=
  tokenize_length_eq_max (fun _ => [7]) 0 { text := ["a"], label := [1] }
    (([7] : List Nat).take 512
      ++ List.replicate (512 - (([7] : List Nat).take 512).length) 0)
    (by exact List.mem_singleton.mpr rfl)

/-- C5: with a "labels" key present in the inputs,
TrainerWithCustomLoss.compute_loss applies the configured compute_loss_fn
to the logits of the model run on the remaining inputs and the labels taken
from the inputs, returning the pair of loss and outputs when
return_outputs is set and the loss alone otherwise. -/
theorem compute_loss_spec {V : Type} (compute_loss_fn : V → V → V)
    (model : List (String × V) → ModelOutput V)
    (inputs : List (String × V)) (return_outputs : Bool) (lab : V)
    (h : dictLookup inputs "labels" = some lab) :
    TrainerWithCustomLoss.compute_loss compute_loss_fn model inputs return_outputs
      = .ok
          (if return_outputs then
            LossReturn.lossAndOutputs
              (compute_loss_fn (model (removeKey inputs "labels")).logits lab)
              (model (removeKey inputs "labels"))
          else
            LossReturn.lossOnly
              (compute_loss_fn (model (removeKey inputs "labels")).logits lab),
          removeKey inputs "labels") := by
  unfold TrainerWithCustomLoss.compute_loss dictPop
  rw [h]

/-- Witness for C5 on a concrete inputs dictionary. -/
theorem compute_loss_spec_witness :
    TrainerWithCustomLoss.compute_loss (fun a b : Nat => a + b)
      (fun _ => ModelOutput.mk 5) [("labels", 3), ("x", 7)] true
      = .ok (LossReturn.lossAndOutputs 8 (ModelOutput.mk 5), [("x", 7)]) := by
  rw [compute_loss_spec (fun a b : Nat => a + b) (fun _ => ModelOutput.mk 5)
    [("labels", 3), ("x", 7)] true 3 (by decide)]
  decide

/-- C6: on any batch containing a label other than "True" or "False",
convert_labels propagates the KeyError of the two-entry dictionary lookup;
the script catches nothing. -/
theorem convert_labels_malformed (d : RawDataset) (l : String)
    (hl : l ∈ d.label) (h1 : l ≠ "True") (h2 : l ≠ "False") :
    convert_labels d = .error .keyError := by
  unfold convert_labels
  exact mapLabels_error d.label l hl (labelMap_bad l h1 h2)

/-- Witness for C6 on a batch with the malformed label "maybe". -/
theorem convert_labels_malformed_witness :
    convert_labels { text := ["x"], label := ["maybe"] }
      = .error .keyError :=
  convert_labels_malformed { text := ["x"], label := ["maybe"] } "maybe"
    (by decide) (by decide) (by decide)

/-- C7: main applies the label conversion map first, then the tokenization
map, then the shuffle, and only then hands the processed train and val
splits to the trainer together with the hyperparameters. -/
theorem pipeline_order :
    (mainTrace.indexOf MainStep.mapConvertLabels
        < mainTrace.indexOf MainStep.mapTokenize) ∧
    (mainTrace.indexOf MainStep.mapTokenize
        < mainTrace.indexOf (MainStep.shuffle 42)) ∧
    (mainTrace.indexOf (MainStep.shuffle 42)
        < mainTrace.indexOf (MainStep.constructTrainer TrainerKind.plain)) ∧
    (∀ (tk : TokenizerCfg) (perm : List Nat) (raw : RawDataset)
        (d1 : ConvertedDataset), datasetMapConvert raw = .ok d1 →
      mainProcessSplit tk perm raw
        = .ok (shuffleSplit perm (datasetMapTokenize tk d1))) ∧
    (∀ (tk : TokenizerCfg) (pt pv : List Nat) (rt rv : RawDataset)
        (t v : TokenizedDataset),
      mainProcessSplit tk pt rt = .ok t → mainProcessSplit tk pv rv = .ok v →
      mainTrainerCall tk pt pv rt rv
        = .ok { kind := TrainerKind.plain, train_dataset := t,
                eval_dataset := v, args := training_args }) := by
  refine ⟨by decide, by decide, by decide, ?_, ?_⟩
  · intro tk perm raw d1 h
    unfold mainProcessSplit
    rw [h]
  · intro tk pt pv rt rv t v ht hv
    unfold mainTrainerCall
    rw [ht, hv]

/-- Witness for C7 on a one-row split. -/
theorem pipeline_order_witness :
    mainProcessSplit (mainTokenizer (fun _ => []) 0) [0]
        { text := ["t"], label := ["True"] }
      = .ok (shuffleSplit [0]
          (datasetMapTokenize (mainTokenizer (fun _ => []) 0)
            { text := ["t"], label := [1] })) :=
  pipeline_order.2.2.2.1 (mainTokenizer (fun _ => []) 0) [0]
    { text := ["t"], label := ["True"] } { text := ["t"], label := [1] }
    (by decide)

/-- C8: convert_labels and tokenize are deterministic and stateless: their
result does not depend on the interpreter state, they leave the state
unchanged, applying either twice to the same input yields equal outputs,
and the stateful reading agrees with the pure embedding. -/
theorem preprocessing_deterministic_stateless :
    (∀ (World : Type) (w w' : World) (ex : RawDataset),
      (convertLabelsSt World ex w).1 = (convertLabelsSt World ex w').1) ∧
    (∀ (World : Type) (w : World) (ex : RawDataset),
      (convertLabelsSt World ex w).2 = w) ∧
    (∀ (World : Type) (w : World) (ex : RawDataset),
      (convertLabelsSt World ex ((convertLabelsSt World ex w).2)).1
        = (convertLabelsSt World ex w).1) ∧
    (∀ (World : Type) (w : World) (ex : RawDataset),
      (convertLabelsSt World ex w).1 = convert_labels ex) ∧
    (∀ (World : Type) (tk : TokenizerCfg) (w w' : World)
        (ex : ConvertedDataset),
      (tokenizeSt World tk ex w).1 = (tokenizeSt World tk ex w').1) ∧
    (∀ (World : Type) (tk : TokenizerCfg) (w : World) (ex : ConvertedDataset),
      (tokenizeSt World tk ex w).2 = w) ∧
    (∀ (World : Type) (tk : TokenizerCfg) (w : World) (ex : ConvertedDataset),
      (tokenizeSt World tk ex ((tokenizeSt World tk ex w).2)).1
        = (tokenizeSt World tk ex w).1) ∧
    (∀ (World : Type) (tk : TokenizerCfg) (w : World) (ex : ConvertedDataset),
      (tokenizeSt World tk ex w).1 = tokenize tk ex) :=
  ⟨fun _ _ _ _ => rfl, fun _ _ _ => rfl, fun _ _ _ => rfl, fun _ _ _ => rfl,
   fun _ _ _ _ _ => rfl, fun _ _ _ _ => rfl, fun _ _ _ _ => rfl,
   fun _ _ _ _ => rfl⟩

/-- C9 counterexample: on a one-line file with batch_size 0 the function
does not return a value at all; the zero division raises. -/
theorem get_max_steps_claim_counterexample :
    get_max_steps ["x"] 1 0 = .error .zeroDivisionError ∧
    ¬ ∃ z : Int, get_max_steps ["x"] 1 0 = .ok z := by
  constructor
  · rfl
  · rintro ⟨z, hz⟩
    rw [show get_max_steps ["x"] 1 0 = .error .zeroDivisionError from rfl] at hz
    cases hz

/-- C9 amended: for a file of N lines with N at least 1 and any
num_train_epochs and any nonzero batch_size, get_max_steps returns the
floor of N * num_train_epochs / batch_size; for batch_size 0 it raises
ZeroDivisionError; for an empty file it raises UnboundLocalError because
the loop counter is never assigned. -/
theorem get_max_steps_amended :
    (∀ (lines : List String) (e b : Int), lines ≠ [] → b ≠ 0 →
      get_max_steps lines e b
        = .ok ⌊(((lines.length : Int) * e : Int) : ℚ) / ((b : Int) : ℚ)⌋) ∧
    (∀ e b : Int, get_max_steps [] e b = .error .unboundLocalError) ∧
    (∀ (lines : List String) (e : Int), lines ≠ [] →
      get_max_steps lines e 0 = .error .zeroDivisionError) := by
  refine ⟨?_, ?_, ?_⟩
  · intro lines e b hne hb
    unfold get_max_steps
    rw [loopLastIndex_eq lines hne]
    have hlen : 1 ≤ lines.length := List.length_pos.mpr hne
    have hc : ((lines.length - 1 : Nat) : Int) + 1 = (lines.length : Int) := by
      omega
    simp only [hb, if_false]
    rw [hc, fdiv_eq_floor _ _ hb]
  · intro e b
    rfl
  · intro lines e hne
    unfold get_max_steps
    rw [loopLastIndex_eq lines hne]
    simp

/-- Witness for the amended C9 on a three-line file. -/
theorem get_max_steps_amended_witness :
    get_max_steps ["a", "b", "c"] 2 2
      = .ok ⌊(((["a", "b", "c"].length : Int) * 2 : Int) : ℚ)
              / (((2 : Int)) : ℚ)⌋ :=
  get_max_steps_amended.1 ["a", "b", "c"] 2 2 (by decide) (by decide)

/-- C10: compute_loss mutates its inputs dictionary: after the call the
"labels" key is gone while the binding of every other key is unchanged. -/
theorem compute_loss_pops_labels {V : Type} (compute_loss_fn : V → V → V)
    (model : List (String × V) → ModelOutput V)
    (inputs : List (String × V)) (return_outputs : Bool) (lab : V)
    (h : dictLookup inputs "labels" = some lab) :
    ∃ (r : LossReturn V) (rest : List (String × V)),
      TrainerWithCustomLoss.compute_loss compute_loss_fn model inputs
          return_outputs = .ok (r, rest) ∧
      dictLookup rest "labels" = none ∧
      (∀ k : String, k ≠ "labels" → dictLookup rest k = dictLookup inputs k) := by
  refine ⟨if return_outputs then
      LossReturn.lossAndOutputs
        (compute_loss_fn (model (removeKey inputs "labels")).logits lab)
        (model (removeKey inputs "labels"))
    else
      LossReturn.lossOnly
        (compute_loss_fn (model (removeKey inputs "labels")).logits lab),
    removeKey inputs "labels", ?_, ?_, ?_⟩
  · unfold TrainerWithCustomLoss.compute_loss dictPop
    rw [h]
  · exact dictLookup_removeKey_self inputs "labels"
  · intro k hk
    exact dictLookup_removeKey_ne inputs "labels" k hk

/-- Witness for C10 on a concrete inputs dictionary. -/
theorem compute_loss_pops_labels_witness :
    ∃ (r : LossReturn Nat) (rest : List (String × Nat)),
      TrainerWithCustomLoss.compute_loss (fun a b : Nat => a * b)
          (fun _ => ModelOutput.mk 4) [("input_ids", 2), ("labels", 9)] false
        = .ok (r, rest) ∧
      dictLookup rest "labels" = none ∧
      (∀ k : String, k ≠ "labels" →
        dictLookup rest k = dictLookup [("input_ids", 2), ("labels", 9)] k) :=
  compute_loss_pops_labels (fun a b : Nat => a * b) (fun _ => ModelOutput.mk 4)
    [("input_ids", 2), ("labels", 9)] false 9 (by decide)
